import Mathlib

/-!
Verification of the museum exhibit catalog's core business rules against
their natural-language specification.

The development is a shallow embedding of the relevant parts of the
repository (apps/museum/models.py, apps/museum/views.py,
apps/museum/admin.py):

* the data model (`Museum`, `MuseumBlock`, `MuseumSection`, `Exhibit`,
  `ExhibitPhoto`) is embedded as Lean structures; only the columns and
  relations that the verified rules touch are carried (unrelated columns
  such as timestamps or the frames_required counter are omitted);
* the database is an explicit list of rows, Django `save()` becomes a
  function from the current table and the in-memory instance to a result
  (`Except`), and a raised Python exception becomes an `Except.error`;
* machine-level concerns (actual image rendering for QR codes, file
  storage) are not modelled: the claims about the QR generator concern
  the encoded text and the chosen file name, which are modelled exactly.
-/

/-- Python-style `a or b` on strings: the empty string is falsy. -/
def pyOrS (a b : String) : String := if a = "" then b else a

/-- Python `n or 0` on a non-negative integer field value. -/
def pyOrZero (n : Nat) : Nat := if n = 0 then 0 else n

/-- Zero-padding to four digits, Python `f"{n:04d}"` for a natural number. -/
def pad4 (n : Nat) : String :=
  let s := toString n
  String.mk (List.replicate (4 - s.length) '0') ++ s

/-- Row of the `Museum` table (models.py 16-34); only the column used by the
verified rules (`slug`) is carried. -/
structure Museum where
  slug : String
deriving DecidableEq, Repr

/-- Row of the `MuseumBlock` table (models.py 37-58): the owning museum, the
block code, and the primary key (used by the exhibit-list block filter). -/
structure MuseumBlock where
  id : Nat
  museum : Museum
  slug : String
deriving DecidableEq, Repr

/-- Row of the `MuseumSection` table (models.py 61-81): primary key and the
exposition number `code_num` used in slug composition. -/
structure MuseumSection where
  id : Nat
  code_num : Nat
deriving DecidableEq, Repr

/-- Row of the `Exhibit` table (models.py 102-155).  `pk` is the Django
primary key (`None` before the first save); `block` and `section_` are the
nullable foreign keys (the column is called `section` in the source, a Lean
keyword); `qr_code` is the stored file name of the generated QR image
(`None` when no file is attached, the falsy case of the Django field).
Columns not touched by the verified rules (subtitles, descriptions, audio,
single_image, is_3d, frames_required, timestamps) are omitted. -/
structure Exhibit where
  pk : Option Nat
  block : Option MuseumBlock
  section_ : Option MuseumSection
  slug : String
  sequence_no : Nat
  qr_code : Option String
  title_ru : String
  title_uz : String
  title_en : String
  title_ar : String
  is_published : Bool
deriving DecidableEq, Repr

/-- Row of the `ExhibitPhoto` table (models.py 277-310); the fields involved
in `clean()`: the kind discriminator and the optional 360-frame index. -/
structure ExhibitPhoto where
  kind : String
  frame_index : Option Nat
  is_active : Bool
deriving DecidableEq, Repr

/-- A Python exception escaping the modelled code: either a Django
`ValidationError` keyed by a field name, or an `AttributeError` from an
attribute access on `None` (or on an object lacking the attribute). -/
inductive PyErr where
  | validationError (field : String)
  | attributeError
deriving DecidableEq, Repr

/-- Whether an escaped exception is a Django `ValidationError`. -/
def PyErr.isValidation : PyErr → Bool
  | .validationError _ => true
  | .attributeError => false

/-- Translation of `Exhibit._build_slug` (models.py 196-201):
`f"{museum_code}-{block_code}-{section_code}.{seq:04d}"` where
`museum_code = self.block.museum.slug`, `block_code = self.block.slug`,
`section_code = self.section.code_num or 0`, `seq = self.sequence_no or 0`.
Accessing `.museum` on a null `block` (resp. `.code_num` on a null
`section`) raises `AttributeError`; the accesses happen in source order,
block first. -/
def exhibit_build_slug (e : Exhibit) : Except PyErr String :=
  match e.block with
  | none => .error .attributeError
  | some b =>
    match e.section_ with
    | none => .error .attributeError
    | some s =>
      let museum_code := b.museum.slug
      let block_code := b.slug
      let section_code := pyOrZero s.code_num
      let seq := pyOrZero e.sequence_no
      .ok (museum_code ++ "-" ++ block_code ++ "-" ++ toString section_code ++ "." ++ pad4 seq)

/-- Translation of `Exhibit.get_qr_path` (models.py 203-205):
`f"/{self.block.museum.slug}/{self.slug}"`; raises `AttributeError` when
`block` is null. -/
def exhibit_get_qr_path (e : Exhibit) : Except PyErr String :=
  match e.block with
  | none => .error .attributeError
  | some b => .ok ("/" ++ b.museum.slug ++ "/" ++ e.slug)

/-- Descending order on `sequence_no`: the sort relation realising
`order_by("-sequence_no")`. -/
def seqDesc (a b : Exhibit) : Prop := b.sequence_no ≤ a.sequence_no

instance : DecidableRel seqDesc := fun a b => Nat.decLe b.sequence_no a.sequence_no

instance : IsTotal Exhibit seqDesc := ⟨fun a b => Nat.le_total b.sequence_no a.sequence_no⟩

instance : IsTrans Exhibit seqDesc := ⟨fun _ _ _ h1 h2 => Nat.le_trans h2 h1⟩

/-- The rows matched by
`Exhibit.objects.filter(block=self.block, section=self.section)`
(models.py 210): the (block, section) group of an exhibit. -/
def exhibit_group (db : List Exhibit) (b : Option MuseumBlock) (s : Option MuseumSection) : List Exhibit :=
  db.filter (fun x => decide (x.block = b) && decide (x.section_ = s))

/-- Sequence-number step of `Exhibit._ensure_slug_and_sequence`
(models.py 208-212): `if not self.sequence_no:` — zero is the falsy value
of the integer field — the (block, section) group is sorted by
`order_by("-sequence_no")` (a stable sort, modelled by insertion sort
under `seqDesc`) and `.first()` is its head; `self.sequence_no` becomes 1
on an empty group, else `last.sequence_no + 1`. -/
def exhibit_seq_assign (db : List Exhibit) (e : Exhibit) : Exhibit :=
  if e.sequence_no = 0 then
    match (List.insertionSort seqDesc (exhibit_group db e.block e.section_)).head? with
    | none => { e with sequence_no := 1 }
    | some last => { e with sequence_no := last.sequence_no + 1 }
  else e

/-- Translation of `Exhibit._ensure_slug_and_sequence` (models.py 207-213):
the sequence-number step, then `self.slug = self._build_slug()`
unconditionally. -/
def exhibit_ensure_slug_and_sequence (db : List Exhibit) (e : Exhibit) : Except PyErr Exhibit :=
  match exhibit_build_slug (exhibit_seq_assign db e) with
  | .error err => .error err
  | .ok slug => .ok { exhibit_seq_assign db e with slug := slug }

/-- Translation of `Exhibit._generate_qr` (models.py 215-267) restricted to
its claim-relevant outputs: the text encoded into the QR matrix
(`url = base + self.get_qr_path()`), the file name passed to
`self.qr_code.save(f"{self.slug}.png", ...)`, and the updated instance.
The raster composition (pixel sizes, caption drawing) is not modelled. -/
def exhibit_generate_qr (base : String) (e : Exhibit) : Except PyErr (String × String × Exhibit) :=
  match exhibit_get_qr_path e with
  | .error err => .error err
  | .ok path =>
    let url := base ++ path
    let filename := e.slug ++ ".png"
    .ok (url, filename, { e with qr_code := some filename })

/-- Translation of `Exhibit.save` (models.py 269-274):
`_ensure_slug_and_sequence`, then `_generate_qr` only when `qr_code` is
falsy, then the ORM write — an INSERT with a fresh primary key when `pk`
is unset, otherwise an UPDATE of the row with that key (Django inserts
when no such row exists). -/
def exhibit_save (base : String) (db : List Exhibit) (e : Exhibit) : Except PyErr (Exhibit × List Exhibit) :=
  match exhibit_ensure_slug_and_sequence db e with
  | .error err => .error err
  | .ok e1 =>
    match (if e1.qr_code = none then (exhibit_generate_qr base e1).map (fun r => r.2.2) else .ok e1) with
    | .error err => .error err
    | .ok e2 =>
      match e2.pk with
      | none =>
        let e3 := { e2 with pk := some (db.length + 1) }
        .ok (e3, db ++ [e3])
      | some i =>
        if db.any (fun x => decide (x.pk = some i)) then
          .ok (e2, db.map (fun x => if x.pk = some i then e2 else x))
        else
          .ok (e2, db ++ [e2])

/-- Translation of `ExhibitAdmin.regenerate_qr` (admin.py 170-180) for one
exhibit of the queryset: `ex.qr_code.delete(save=False)` clears the file
reference, `ex._generate_qr()` runs the same generator, and
`ex.save(update_fields=["qr_code"])` runs the full save logic but writes
only the `qr_code` column back to the row. -/
def admin_regenerate_qr (base : String) (db : List Exhibit) (e : Exhibit) : Except PyErr (Exhibit × List Exhibit) :=
  match exhibit_generate_qr base { e with qr_code := none } with
  | .error err => .error err
  | .ok (_, _, e1) =>
    match exhibit_ensure_slug_and_sequence db e1 with
    | .error err => .error err
    | .ok e2 =>
      match (if e2.qr_code = none then (exhibit_generate_qr base e2).map (fun r => r.2.2) else .ok e2) with
      | .error err => .error err
      | .ok e3 =>
        .ok (e3, db.map (fun x => if x.pk = e3.pk then { x with qr_code := e3.qr_code } else x))

/-- Translation of `ExhibitPhoto.clean` (models.py 304-310): a 360 frame
without a truthy `frame_index` (Python falsy: `None` or 0) raises a
`ValidationError` keyed on `frame_index`; a gallery photo has its
`frame_index` nulled. -/
def optNatFalsy : Option Nat → Bool
  | none => true
  | some n => n = 0

/-- The clean step itself; see `optNatFalsy` for the truthiness test. -/
def exhibitPhoto_clean (p : ExhibitPhoto) : Except PyErr ExhibitPhoto :=
  if p.kind = "frame" && optNatFalsy p.frame_index then
    .error (.validationError "frame_index")
  else if p.kind = "gallery" then
    .ok { p with frame_index := none }
  else
    .ok p

/-- The four display languages of `views.Lang`. -/
inductive Lang where
  | ru
  | uz
  | en
  | ar
deriving DecidableEq, Repr

/-- Title component of `_localized_content` (views.py 41-46): the literal
per-language `or`-chains of the source, ending in the slug. -/
def localized_title (e : Exhibit) (lang : Lang) : String :=
  match lang with
  | .ru => pyOrS e.title_ru (pyOrS e.title_en (pyOrS e.title_uz e.slug))
  | .uz => pyOrS e.title_uz (pyOrS e.title_ru (pyOrS e.title_en e.slug))
  | .en => pyOrS e.title_en (pyOrS e.title_ru (pyOrS e.title_uz e.slug))
  | .ar => pyOrS e.title_ar (pyOrS e.title_ru (pyOrS e.title_uz e.slug))

/-- Specification-side fallback chain for titles, from the spec's words:
ru: title_ru, title_en, title_uz; uz: title_uz, title_ru, title_en;
en: title_en, title_ru, title_uz; ar: title_ar, title_ru, title_uz. -/
def title_chain (e : Exhibit) : Lang → List String
  | .ru => [e.title_ru, e.title_en, e.title_uz]
  | .uz => [e.title_uz, e.title_ru, e.title_en]
  | .en => [e.title_en, e.title_ru, e.title_uz]
  | .ar => [e.title_ar, e.title_ru, e.title_uz]

/-- Specification-side resolver: the first non-empty entry of a chain, or
the default when every entry is empty. -/
def firstNonEmpty : List String → String → String
  | [], d => d
  | t :: rest, d => if t = "" then firstNonEmpty rest d else t

/-- Python `str.strip()`: drop whitespace from both ends. -/
def pyStrip (s : String) : String :=
  String.mk (((s.data.dropWhile Char.isWhitespace).reverse.dropWhile Char.isWhitespace).reverse)

/-- Case-insensitive substring test, the ORM `icontains` lookup. -/
def str_icontains (hay needle : String) : Bool :=
  decide (needle.toLower.data <:+: hay.toLower.data)

/-- Case-insensitive equality, the ORM `iexact` lookup. -/
def str_iexact (a b : String) : Bool := a.toLower = b.toLower

/-- Lexicographic code-point comparison of character lists, the collation
used for ordering slugs. -/
def strLeB : List Char → List Char → Bool
  | [], _ => true
  | _ :: _, [] => false
  | c :: cs, d :: ds => if c < d then true else if d < c then false else strLeB cs ds

/-- Ascending lexicographic order on `slug`, realising `order_by("slug")`. -/
def slugAsc (a b : Exhibit) : Prop := strLeB a.slug.data b.slug.data = true

instance : DecidableRel slugAsc := fun a b => instDecidableEqBool (strLeB a.slug.data b.slug.data) true

/-- First stage of `ExhibitListView.get_queryset` (views.py 90-93):
`Exhibit.objects.filter(is_published=True).order_by("slug")`. -/
def published_ordered (db : List Exhibit) : List Exhibit :=
  List.insertionSort slugAsc (db.filter (fun e => e.is_published))

/-- Museum filter (views.py 95-97): applied only when the URL kwarg is
present and truthy; `block__museum__slug__iexact` joins through `block`,
so a row with a null block matches nothing. -/
def filter_museum (qs : List Exhibit) : Option String → List Exhibit
  | none => qs
  | some ms =>
      qs.filter (fun e =>
        match e.block with
        | none => false
        | some b => str_iexact b.museum.slug ms)

/-- Free-text filter (views.py 99-106): `q = request.GET.get("q", "").strip()`;
when non-empty, an OR of `icontains` lookups over the three titles and the
slug. -/
def filter_query (qs : List Exhibit) (q : String) : List Exhibit :=
  let query := pyStrip q
  if query = "" then qs
  else
    qs.filter (fun e =>
      str_icontains e.title_ru query || str_icontains e.title_uz query ||
      str_icontains e.title_en query || str_icontains e.slug query)

/-- Block filter (views.py 108-110): `filter(block_id=block_id)` when the
GET parameter is present and non-empty (modelled as an `Option` over the
coerced integer key). -/
def filter_block (qs : List Exhibit) : Option Nat → List Exhibit
  | none => qs
  | some bid => qs.filter (fun e => decide (e.block.map MuseumBlock.id = some bid))

/-- Section filter (views.py 112-114), same shape as the block filter. -/
def filter_section (qs : List Exhibit) : Option Nat → List Exhibit
  | none => qs
  | some sid => qs.filter (fun e => decide (e.section_.map MuseumSection.id = some sid))

/-- Translation of `ExhibitListView.get_queryset` (views.py 90-116): the
published-only base queryset with the four optional filters applied in
source order. -/
def exhibitList_queryset (db : List Exhibit) (museum_slug : Option String)
    (q : String) (block_id : Option Nat) (section_id : Option Nat) : List Exhibit :=
  filter_section (filter_block (filter_query (filter_museum (published_ordered db) museum_slug) q) block_id) section_id

/-- Attribute names defined on the `Exhibit` model class (models.py
102-274): concrete columns, reverse relation, helper methods. -/
def exhibit_attribute_names : List String :=
  ["id", "pk", "block", "section", "slug", "sequence_no", "qr_code",
   "title_ru", "title_uz", "title_en", "title_ar",
   "sub_title_ru", "sub_title_uz", "sub_title_en", "sub_title_ar",
   "description_ru", "description_uz", "description_en", "description_ar",
   "audio_ru", "audio_uz", "audio_en",
   "single_image", "is_3d", "frames_required", "is_published",
   "created_at", "updated_at", "photos",
   "ci360_folder", "ci360_filename_pattern", "has_single_image",
   "frames_qs", "gallery_qs", "frames_count", "first_frame_url",
   "get_qr_path", "save"]

/-- Attributes read on the fetched exhibit `ex` by
`ExhibitDetailByCodesView.get` (views.py 225-264), including the reads
performed inside `_localized_content(ex, lang)`. -/
def detail_view_exhibit_reads : List String :=
  ["block", "slug",
   "title_ru", "title_uz", "title_en", "title_ar",
   "sub_title_ru", "sub_title_uz", "sub_title_en", "sub_title_ar",
   "description_ru", "description_uz", "description_en", "description_ar",
   "audio_ru", "audio_uz", "audio_en",
   "video",
   "is_3d", "frames_count", "ci360_folder", "ci360_filename_pattern",
   "single_image", "has_single_image", "gallery_qs"]

/-- Whether every attribute the detail handler reads exists on the model. -/
def detail_view_total : Bool :=
  detail_view_exhibit_reads.all (fun a => exhibit_attribute_names.contains a)

/-- Maximum of a list of sequence numbers (0 on the empty list): the
specification's "maximum existing sequence_no in that group". -/
def max_seq (l : List Nat) : Nat := l.foldr max 0

/-- The sequence numbers present in a (block, section) group. -/
def group_seqs (db : List Exhibit) (b : Option MuseumBlock) (s : Option MuseumSection) : List Nat :=
  (exhibit_group db b s).map Exhibit.sequence_no

/-- Specification-side next sequence number: 1 when no exhibit exists in
the (block, section) group, otherwise the maximum existing sequence number
plus 1. -/
def spec_next_seq (db : List Exhibit) (b : Option MuseumBlock) (s : Option MuseumSection) : Nat :=
  if exhibit_group db b s = [] then 1 else max_seq (group_seqs db b s) + 1

/-- Specification-side slug format:
`{museum.slug}-{block.slug}-{section.code_num}.{sequence_no:04d}`. -/
def spec_slug (m bl : String) (cn seq : Nat) : String :=
  m ++ "-" ++ bl ++ "-" ++ toString cn ++ "." ++ pad4 seq

/-- Demonstration museum, blocks, section and fresh exhibits used by the
concrete witnesses and counterexamples. -/
def demoMuseum : Museum := { slug := "ISC" }

/-- Demonstration block REN2 of the demo museum. -/
def demoBlock2 : MuseumBlock := { id := 1, museum := demoMuseum, slug := "REN2" }

/-- Demonstration block REN3 of the demo museum. -/
def demoBlock3 : MuseumBlock := { id := 2, museum := demoMuseum, slug := "REN3" }

/-- Demonstration section with exposition number 1. -/
def demoSection : MuseumSection := { id := 1, code_num := 1 }

/-- Base URL used by the demonstration saves (the configured `BASE_URL`). -/
def demoBase : String := "http://127.0.0.1:8000"

/-- A freshly constructed, not yet saved exhibit with the given relations. -/
def newExhibit (b : Option MuseumBlock) (s : Option MuseumSection) : Exhibit :=
  { pk := none, block := b, section_ := s, slug := "", sequence_no := 0,
    qr_code := none, title_ru := "", title_uz := "", title_en := "",
    title_ar := "", is_published := true }

/-- Fresh demo exhibit in (REN2, section 1). -/
def demoE0 : Exhibit := newExhibit (some demoBlock2) (some demoSection)

/-- The row produced by the first save of `demoE0`. -/
def demoE1 : Exhibit :=
  { demoE0 with
    pk := some 1
    sequence_no := 1
    slug := "ISC-REN2-1.0001"
    qr_code := some "ISC-REN2-1.0001.png" }

/-- The exhibit `demoE1` after an (invalid) in-place mutation of its block
to REN3, slug and sequence still those of the first save. -/
def demoE1mut : Exhibit := { demoE1 with block := some demoBlock3 }

/-- The row produced by resaving the mutated exhibit: the slug has been
rebuilt from the mutated block. -/
def demoE2 : Exhibit := { demoE1mut with slug := "ISC-REN3-1.0001" }

/-- A fresh exhibit with no block assigned. -/
def exhibitNoBlock : Exhibit := newExhibit none (some demoSection)

/-- A one-row table holding the already saved `demoE1`. -/
def demoDb : List Exhibit := [demoE1]

/-- A second fresh exhibit saved into the same (block, section) group. -/
def demoF : Exhibit := newExhibit (some demoBlock2) (some demoSection)

/-- The row produced by saving `demoF` against `demoDb`. -/
def demoFsaved : Exhibit :=
  { demoF with
    pk := some 2
    sequence_no := 2
    slug := "ISC-REN2-1.0002"
    qr_code := some "ISC-REN2-1.0002.png" }

/-- An unpublished sibling row, for the published-only filter. -/
def demoUnpub : Exhibit :=
  { demoE1 with
    pk := some 2
    sequence_no := 2
    slug := "ISC-REN2-1.0002"
    is_published := false }

/-- An exhibit with an empty Russian title, an English title and an Uzbek
title, the example of the localization claim. -/
def demoTitled : Exhibit := { demoE1 with title_en := "Statue", title_uz := "Haykal" }

/-- A 360-frame photo with no frame index. -/
def demoFramePhoto : ExhibitPhoto := { kind := "frame", frame_index := none, is_active := true }

/-- A gallery photo carrying a stray frame index of 5. -/
def demoGalleryPhoto : ExhibitPhoto := { kind := "gallery", frame_index := some 5, is_active := true }

deriving instance DecidableEq for Except


lemma pyOrZero_eq (n : Nat) : pyOrZero n = n := by
  unfold pyOrZero; split <;> omega

lemma le_max_seq {l : List Nat} {x : Nat} (h : x ∈ l) : x ≤ max_seq l := by
  induction l with
  | nil => cases h
  | cons a t ih =>
    rcases List.mem_cons.mp h with rfl | hmem
    · exact Nat.le_max_left _ _
    · exact Nat.le_trans (ih hmem) (Nat.le_max_right _ _)

lemma max_seq_le {l : List Nat} {m : Nat} (h : ∀ x ∈ l, x ≤ m) : max_seq l ≤ m := by
  induction l with
  | nil => exact Nat.zero_le m
  | cons a t ih =>
    exact Nat.max_le.mpr ⟨h a (List.mem_cons_self a t), ih (fun x hx => h x (List.mem_cons_of_mem a hx))⟩

lemma head_sort_seq_max {g : List Exhibit} {l : Exhibit}
    (h : (List.insertionSort seqDesc g).head? = some l) :
    l.sequence_no = max_seq (g.map Exhibit.sequence_no) ∧ g ≠ [] := by
  cases hsrt : List.insertionSort seqDesc g with
  | nil => rw [hsrt] at h; cases h
  | cons a rest =>
    rw [hsrt] at h
    have hal : a = l := by simpa using h
    subst hal
    have hperm : (a :: rest).Perm g := by
      have := List.perm_insertionSort seqDesc g
      rwa [hsrt] at this
    have hsorted : List.Sorted seqDesc (a :: rest) := by
      have := List.sorted_insertionSort seqDesc g
      rwa [hsrt] at this
    constructor
    · apply Nat.le_antisymm
      · exact le_max_seq (List.mem_map_of_mem Exhibit.sequence_no
          (hperm.mem_iff.mp (List.mem_cons_self a rest)))
      · apply max_seq_le
        intro x hx
        rcases List.mem_map.mp hx with ⟨y, hy, rfl⟩
        rcases List.mem_cons.mp (hperm.mem_iff.mpr hy) with rfl | hmem
        · exact Nat.le_refl _
        · exact List.rel_of_sorted_cons hsorted y hmem
    · intro hnil
      rw [hnil] at hperm
      exact absurd hperm.eq_nil (by simp)

lemma seq_assign_proj (db : List Exhibit) (e : Exhibit) :
    (exhibit_seq_assign db e).block = e.block ∧
    (exhibit_seq_assign db e).section_ = e.section_ ∧
    (exhibit_seq_assign db e).qr_code = e.qr_code ∧
    (exhibit_seq_assign db e).pk = e.pk ∧
    (exhibit_seq_assign db e).slug = e.slug := by
  unfold exhibit_seq_assign
  split
  · split <;> simp
  · simp

lemma seq_assign_of_ne (db : List Exhibit) {e : Exhibit} (h : e.sequence_no ≠ 0) :
    exhibit_seq_assign db e = e := by
  unfold exhibit_seq_assign
  simp [h]

lemma seq_assign_of_zero {db : List Exhibit} {e : Exhibit} (h0 : e.sequence_no = 0) :
    exhibit_seq_assign db e = { e with sequence_no := spec_next_seq db e.block e.section_ } := by
  unfold exhibit_seq_assign
  rw [if_pos h0]
  cases hh : (List.insertionSort seqDesc (exhibit_group db e.block e.section_)).head? with
  | none =>
    have hnil : List.insertionSort seqDesc (exhibit_group db e.block e.section_) = [] := by
      cases hsrt : List.insertionSort seqDesc (exhibit_group db e.block e.section_) with
      | nil => rfl
      | cons a rest => rw [hsrt] at hh; cases hh
    have hgrp : exhibit_group db e.block e.section_ = [] := by
      have := List.perm_insertionSort seqDesc (exhibit_group db e.block e.section_)
      rw [hnil] at this
      exact (this.symm.eq_nil)
    rw [spec_next_seq, if_pos hgrp]
  | some last =>
    obtain ⟨hmax, hne⟩ := head_sort_seq_max hh
    rw [spec_next_seq, if_neg hne]
    have hms : max_seq (group_seqs db e.block e.section_) = last.sequence_no := by
      rw [hmax]; rfl
    rw [hms]

lemma build_slug_some {e : Exhibit} {b : MuseumBlock} {s : MuseumSection}
    (hb : e.block = some b) (hs : e.section_ = some s) :
    exhibit_build_slug e = .ok (spec_slug b.museum.slug b.slug s.code_num e.sequence_no) := by
  unfold exhibit_build_slug spec_slug
  rw [hb, hs]
  simp [pyOrZero_eq]

lemma build_slug_ok_inv {e : Exhibit} {sl : String}
    (h : exhibit_build_slug e = .ok sl) :
    (∃ b, e.block = some b) ∧ (∃ s, e.section_ = some s) := by
  unfold exhibit_build_slug at h
  cases hb : e.block with
  | none => rw [hb] at h; cases h
  | some b =>
    rw [hb] at h
    cases hs : e.section_ with
    | none => rw [hs] at h; cases h
    | some s => exact ⟨⟨b, rfl⟩, ⟨s, rfl⟩⟩

lemma ensure_seq_zero {db : List Exhibit} {e : Exhibit} {b : MuseumBlock} {s : MuseumSection}
    (h0 : e.sequence_no = 0) (hb : e.block = some b) (hs : e.section_ = some s) :
    exhibit_ensure_slug_and_sequence db e =
      .ok { e with
              sequence_no := spec_next_seq db (some b) (some s)
              slug := spec_slug b.museum.slug b.slug s.code_num (spec_next_seq db (some b) (some s)) } := by
  unfold exhibit_ensure_slug_and_sequence
  rw [seq_assign_of_zero h0, hb, hs]
  rw [build_slug_some (b := b) (s := s) (by simp [hb]) (by simp [hs])]

lemma ensure_seq_ne (db : List Exhibit) {e : Exhibit} {b : MuseumBlock} {s : MuseumSection}
    (h0 : e.sequence_no ≠ 0) (hb : e.block = some b) (hs : e.section_ = some s) :
    exhibit_ensure_slug_and_sequence db e =
      .ok { e with slug := spec_slug b.museum.slug b.slug s.code_num e.sequence_no } := by
  unfold exhibit_ensure_slug_and_sequence
  rw [seq_assign_of_ne db h0, build_slug_some hb hs]

lemma ensure_ok_inv {db : List Exhibit} {e e1 : Exhibit}
    (h : exhibit_ensure_slug_and_sequence db e = .ok e1) :
    e1.qr_code = e.qr_code ∧ e1.pk = e.pk ∧ e1.block = e.block ∧ e1.section_ = e.section_ ∧
    (e.sequence_no ≠ 0 → e1.sequence_no = e.sequence_no) ∧
    (∃ b, e1.block = some b) ∧ (∃ s, e1.section_ = some s) := by
  unfold exhibit_ensure_slug_and_sequence at h
  cases hbs : exhibit_build_slug (exhibit_seq_assign db e) with
  | error err => rw [hbs] at h; cases h
  | ok sl =>
    rw [hbs] at h
    have he1 : e1 = { exhibit_seq_assign db e with slug := sl } := by
      cases h; rfl
    obtain ⟨hpb, hps, hpq, hpp, _⟩ := seq_assign_proj db e
    obtain ⟨⟨b, hbb⟩, ⟨s, hss⟩⟩ := build_slug_ok_inv hbs
    subst he1
    refine ⟨by simpa using hpq, by simpa using hpp, by simpa using hpb, by simpa using hps, ?_, ?_, ?_⟩
    · intro hne
      have := seq_assign_of_ne db hne
      simp [this]
    · exact ⟨b, by simpa using hbb⟩
    · exact ⟨s, by simpa using hss⟩

lemma save_fresh (base : String) (db : List Exhibit) {e : Exhibit}
    {b : MuseumBlock} {s : MuseumSection}
    (h0 : e.sequence_no = 0) (hpk : e.pk = none)
    (hb : e.block = some b) (hs : e.section_ = some s) :
    ∃ e', exhibit_save base db e = .ok (e', db ++ [e']) ∧
      e'.sequence_no = spec_next_seq db (some b) (some s) ∧
      e'.block = some b ∧ e'.section_ = some s := by
  unfold exhibit_save
  rw [ensure_seq_zero h0 hb hs]
  cases hq : e.qr_code with
  | none =>
    refine ⟨{ e with
        sequence_no := spec_next_seq db (some b) (some s)
        slug := spec_slug b.museum.slug b.slug s.code_num (spec_next_seq db (some b) (some s))
        qr_code := some (spec_slug b.museum.slug b.slug s.code_num (spec_next_seq db (some b) (some s)) ++ ".png")
        pk := some (db.length + 1) }, ?_, by simp, by simp [hb], by simp [hs]⟩
    simp [hq, hpk, hb, exhibit_generate_qr, exhibit_get_qr_path, Except.map]
  | some q0 =>
    refine ⟨{ e with
        sequence_no := spec_next_seq db (some b) (some s)
        slug := spec_slug b.museum.slug b.slug s.code_num (spec_next_seq db (some b) (some s))
        qr_code := some q0
        pk := some (db.length + 1) }, ?_, by simp, by simp [hb], by simp [hs]⟩
    simp [hq, hpk, hb]

lemma group_seqs_append (db1 db2 : List Exhibit) (b : Option MuseumBlock) (s : Option MuseumSection) :
    group_seqs (db1 ++ db2) b s = group_seqs db1 b s ++ group_seqs db2 b s := by
  simp [group_seqs, exhibit_group, List.filter_append]

lemma group_seqs_singleton {e : Exhibit} {b : Option MuseumBlock} {s : Option MuseumSection}
    (hb : e.block = b) (hs : e.section_ = s) :
    group_seqs [e] b s = [e.sequence_no] := by
  simp [group_seqs, exhibit_group, hb, hs]

lemma nodup_append_above {l : List Nat} (hnd : l.Nodup) {v : Nat}
    (hv : ∀ x ∈ l, x < v) : (l ++ [v]).Nodup := by
  rw [List.nodup_append]
  refine ⟨hnd, List.nodup_singleton v, ?_⟩
  intro a ha hmem
  have hav : a = v := by simpa using hmem
  exact absurd (hav ▸ hv a ha) (Nat.lt_irrefl v)

lemma firstNonEmpty_all_empty (l : List String) (d : String)
    (h : l.all (fun t => t = "") = true) : firstNonEmpty l d = d := by
  induction l with
  | nil => rfl
  | cons a t ih =>
    rw [List.all_cons, Bool.and_eq_true] at h
    obtain ⟨ha, ht⟩ := h
    have ha' : a = "" := by simpa using ha
    simp [firstNonEmpty, ha', ih ht]

lemma save_after_ensure {base : String} {db : List Exhibit} {e e1 e' : Exhibit} {db' : List Exhibit}
    {b : MuseumBlock}
    (hens : exhibit_ensure_slug_and_sequence db e = .ok e1)
    (hb1 : e1.block = some b)
    (hsave : exhibit_save base db e = .ok (e', db')) :
    e'.slug = e1.slug ∧ e'.sequence_no = e1.sequence_no ∧
    e'.qr_code = (if e1.qr_code = none then some (e1.slug ++ ".png") else e1.qr_code) := by
  unfold exhibit_save at hsave
  rw [hens] at hsave
  cases hq : e1.qr_code with
  | none =>
    simp only [hq, if_pos, exhibit_generate_qr, exhibit_get_qr_path, hb1, Except.map] at hsave
    cases hpk : e1.pk with
    | none =>
      simp [hpk] at hsave
      obtain ⟨h1, _⟩ := hsave
      rw [← h1]
      simp
    | some i =>
      simp [hpk] at hsave
      split at hsave <;>
        (simp only [Except.ok.injEq, Prod.mk.injEq] at hsave
         obtain ⟨rfl, rfl⟩ := hsave
         simp)
  | some q0 =>
    simp only [hq, reduceIte] at hsave
    cases hpk : e1.pk with
    | none =>
      simp [hpk] at hsave
      obtain ⟨h1, _⟩ := hsave
      rw [← h1]
      simp [hq]
    | some i =>
      simp [hpk] at hsave
      split at hsave <;>
        (simp only [Except.ok.injEq, Prod.mk.injEq] at hsave
         obtain ⟨rfl, rfl⟩ := hsave
         simp [hq])

/-- C1: on the first save of an Exhibit (primary key unset, `sequence_no`
not yet set) with block and section assigned, the assigned `sequence_no`
is given by `spec_next_seq`: 1 when no other exhibit exists with the same
(block, section), otherwise the maximum existing sequence number of that
group plus 1; the saved row is appended to the table, and distinctness of
the sequence numbers within the (block, section) group is preserved. -/
theorem c1_sequence_assignment_unique
    (base : String) (db : List Exhibit) (e : Exhibit)
    (b : MuseumBlock) (s : MuseumSection) (e' : Exhibit) (db' : List Exhibit)
    (hpk : e.pk = none) (h0 : e.sequence_no = 0)
    (hb : e.block = some b) (hs : e.section_ = some s)
    (hsave : exhibit_save base db e = .ok (e', db')) :
    e'.sequence_no = spec_next_seq db (some b) (some s) ∧
    db' = db ++ [e'] ∧
    ((group_seqs db (some b) (some s)).Nodup → (group_seqs db' (some b) (some s)).Nodup) := by
  obtain ⟨E, hrun, hseq, hEb, hEs⟩ := save_fresh base db h0 hpk hb hs
  rw [hrun] at hsave
  simp only [Except.ok.injEq, Prod.mk.injEq] at hsave
  obtain ⟨rfl, rfl⟩ := hsave
  refine ⟨hseq, rfl, ?_⟩
  intro hnd
  rw [group_seqs_append, group_seqs_singleton hEb hEs]
  apply nodup_append_above hnd
  intro x hx
  rw [hseq]
  unfold spec_next_seq
  have hgrp_ne : exhibit_group db (some b) (some s) ≠ [] := by
    intro hemp
    rw [group_seqs, hemp] at hx
    simp at hx
  rw [if_neg hgrp_ne]
  exact Nat.lt_succ_of_le (le_max_seq hx)

/-- Witness for C1: saving a second exhibit into the (REN2, section 1)
group of `demoDb` assigns sequence number 2 = max + 1 and keeps the group's
sequence numbers distinct. -/
theorem c1_witness :
    demoFsaved.sequence_no = spec_next_seq demoDb (some demoBlock2) (some demoSection) ∧
    demoDb ++ [demoFsaved] = demoDb ++ [demoFsaved] ∧
    ((group_seqs demoDb (some demoBlock2) (some demoSection)).Nodup →
      (group_seqs (demoDb ++ [demoFsaved]) (some demoBlock2) (some demoSection)).Nodup) :=
  c1_sequence_assignment_unique demoBase demoDb demoF demoBlock2 demoSection
    demoFsaved (demoDb ++ [demoFsaved])
    (by decide) (by decide) (by decide) (by decide) (by decide)

/-- C2: for an Exhibit with block and section set, `_build_slug` produces
exactly `{museum.slug}-{block.slug}-{section.code_num}.{sequence_no:04d}`
(`spec_slug`), and the spec's example instance holds: museum "ISC", block
"REN2", section 1, sequence 1 gives "ISC-REN2-1.0001". -/
theorem c2_slug_format (e : Exhibit) (b : MuseumBlock) (s : MuseumSection)
    (hb : e.block = some b) (hs : e.section_ = some s) :
    exhibit_build_slug e = .ok (spec_slug b.museum.slug b.slug s.code_num e.sequence_no) ∧
    spec_slug "ISC" "REN2" 1 1 = "ISC-REN2-1.0001" :=
  ⟨build_slug_some hb hs, by decide⟩

/-- Witness for C2 at the concrete first-saved exhibit. -/
theorem c2_witness :
    exhibit_build_slug demoE1 =
      .ok (spec_slug demoBlock2.museum.slug demoBlock2.slug demoSection.code_num demoE1.sequence_no) ∧
    spec_slug "ISC" "REN2" 1 1 = "ISC-REN2-1.0001" :=
  c2_slug_format demoE1 demoBlock2 demoSection (by decide) (by decide)

/-- C3 counterexample: the claim "resaving an Exhibit whose slug and
sequence_no are already set changes neither, even if block/section were
mutated" is false.  `demoE1` is reachable by a first save; mutating its
block to REN3 and resaving keeps `sequence_no` but rebuilds the slug to
"ISC-REN3-1.0001" ≠ "ISC-REN2-1.0001". -/
theorem c3_counterexample :
    exhibit_save demoBase [] demoE0 = .ok (demoE1, [demoE1]) ∧
    demoE1mut.slug = "ISC-REN2-1.0001" ∧
    demoE1mut.sequence_no = 1 ∧
    exhibit_save demoBase [demoE1] demoE1mut = .ok (demoE2, [demoE2]) ∧
    demoE2.sequence_no = demoE1mut.sequence_no ∧
    demoE2.slug = "ISC-REN3-1.0001" ∧
    ¬ demoE2.slug = demoE1mut.slug := by decide

/-- C3 (amended): resaving an Exhibit whose sequence_no is already set
leaves `sequence_no` unchanged, but the slug is recomputed from the
current block/section on every save; it is unchanged exactly when the
stored slug already equals the recomputed value (in particular whenever
block and section were not mutated). -/
theorem c3_amended_resave (base : String) (db : List Exhibit) (e : Exhibit)
    (b : MuseumBlock) (s : MuseumSection) (e' : Exhibit) (db' : List Exhibit)
    (hseq : e.sequence_no ≠ 0) (hb : e.block = some b) (hs : e.section_ = some s)
    (hsave : exhibit_save base db e = .ok (e', db')) :
    e'.sequence_no = e.sequence_no ∧
    e'.slug = spec_slug b.museum.slug b.slug s.code_num e.sequence_no ∧
    (e.slug = spec_slug b.museum.slug b.slug s.code_num e.sequence_no → e'.slug = e.slug) := by
  have hens := ensure_seq_ne db hseq hb hs
  have hb1 : ({ e with slug := spec_slug b.museum.slug b.slug s.code_num e.sequence_no } : Exhibit).block = some b := by
    simpa using hb
  obtain ⟨hslug, hsq, _⟩ := save_after_ensure hens hb1 hsave
  refine ⟨by simpa using hsq, by simpa using hslug, ?_⟩
  intro hstable
  rw [hstable]
  simpa using hslug

/-- Witness for C3's amended statement: resaving the unmutated `demoE1`
keeps both its sequence number and its slug. -/
theorem c3_amended_witness :
    demoE1.sequence_no = demoE1.sequence_no ∧
    demoE1.slug = spec_slug demoBlock2.museum.slug demoBlock2.slug demoSection.code_num demoE1.sequence_no ∧
    (demoE1.slug = spec_slug demoBlock2.museum.slug demoBlock2.slug demoSection.code_num demoE1.sequence_no →
      demoE1.slug = demoE1.slug) :=
  c3_amended_resave demoBase [demoE1] demoE1 demoBlock2 demoSection demoE1 [demoE1]
    (by decide) (by decide) (by decide) (by decide)

/-- C4 counterexample: the claim says a save without block is "rejected
with a validation error"; the code instead crashes with an
`AttributeError` raised by `_build_slug` accessing `.museum` on `None` —
not a Django `ValidationError`. -/
theorem c4_counterexample :
    exhibit_save demoBase [] exhibitNoBlock = .error PyErr.attributeError ∧
    PyErr.attributeError.isValidation = false := by decide

/-- C4 (amended): saving an Exhibit whose block or section is unset fails
before any write — the save raises an `AttributeError` while building the
slug (not a field-level validation error), so no slug is assigned and the
table is left unchanged (no row is produced). -/
theorem c4_amended_unset_rejected (base : String) (db : List Exhibit) (e : Exhibit)
    (h : e.block = none ∨ e.section_ = none) :
    exhibit_save base db e = .error PyErr.attributeError := by
  have hb := (seq_assign_proj db e).1
  have hs := (seq_assign_proj db e).2.1
  have hbs : exhibit_build_slug (exhibit_seq_assign db e) = .error .attributeError := by
    unfold exhibit_build_slug
    rcases h with h | h
    · rw [hb, h]
    · rw [hb, hs, h]
      cases e.block <;> rfl
  unfold exhibit_save exhibit_ensure_slug_and_sequence
  rw [hbs]

/-- Witness for C4's amended statement at a concrete block-less exhibit. -/
theorem c4_amended_witness :
    exhibit_save demoBase [] exhibitNoBlock = .error PyErr.attributeError :=
  c4_amended_unset_rejected demoBase [] exhibitNoBlock (Or.inl (by decide))

/-- C5: for every Exhibit and language the resolved title is the first
non-empty entry of the per-language fallback chain (ru: ru,en,uz;
uz: uz,ru,en; en: en,ru,uz; ar: ar,ru,uz), with the slug as final
fallback when the whole chain is empty. -/
theorem c5_title_fallback (e : Exhibit) (lang : Lang) :
    localized_title e lang = firstNonEmpty (title_chain e lang) e.slug ∧
    ((title_chain e lang).all (fun t => t = "") = true → localized_title e lang = e.slug) := by
  have h1 : localized_title e lang = firstNonEmpty (title_chain e lang) e.slug := by
    cases lang <;> rfl
  exact ⟨h1, fun h => h1.trans (firstNonEmpty_all_empty _ _ h)⟩

/-- Witness for C5: all-empty titles resolve to the slug, and the spec's
example resolves to "Statue" for ru and "Haykal" for uz. -/
theorem c5_witness :
    localized_title demoE1 Lang.ru = demoE1.slug ∧
    localized_title demoTitled Lang.ru = "Statue" ∧
    localized_title demoTitled Lang.uz = "Haykal" :=
  ⟨(c5_title_fallback demoE1 Lang.ru).2 (by decide), by decide, by decide⟩

/-- C6: cleaning a Photo with kind "frame" and no frame index fails with a
validation error keyed on `frame_index`; cleaning a Photo with kind
"gallery" always succeeds and normalizes any provided frame index to
`None`. -/
theorem c6_photo_kind_validation (p : ExhibitPhoto) :
    (p.kind = "frame" ∧ p.frame_index = none →
      exhibitPhoto_clean p = .error (.validationError "frame_index")) ∧
    (p.kind = "gallery" → exhibitPhoto_clean p = .ok { p with frame_index := none }) := by
  constructor
  · rintro ⟨h1, h2⟩
    simp [exhibitPhoto_clean, h1, h2, optNatFalsy]
  · intro h
    simp [exhibitPhoto_clean, h, optNatFalsy]

/-- Witness for C6: a frame photo without index is rejected; a gallery
photo with stray index 5 is accepted with the index cleared. -/
theorem c6_witness :
    exhibitPhoto_clean demoFramePhoto = .error (.validationError "frame_index") ∧
    exhibitPhoto_clean demoGalleryPhoto = .ok { demoGalleryPhoto with frame_index := none } :=
  ⟨(c6_photo_kind_validation demoFramePhoto).1 (by decide),
   (c6_photo_kind_validation demoGalleryPhoto).2 (by decide)⟩

/-- C7: for an Exhibit with a block, the QR generator encodes exactly
`base ++ "/" ++ museum-slug ++ "/" ++ exhibit-slug` and saves the file
under the name `slug ++ ".png"`. -/
theorem c7_qr_payload (base : String) (e : Exhibit) (b : MuseumBlock)
    (hb : e.block = some b) :
    exhibit_generate_qr base e =
      .ok (base ++ "/" ++ b.museum.slug ++ "/" ++ e.slug, e.slug ++ ".png",
           { e with qr_code := some (e.slug ++ ".png") }) := by
  simp [exhibit_generate_qr, exhibit_get_qr_path, hb, String.append_assoc]

/-- Witness for C7 at the concrete first-saved exhibit. -/
theorem c7_witness :
    exhibit_generate_qr demoBase demoE1 =
      .ok (demoBase ++ "/" ++ demoBlock2.museum.slug ++ "/" ++ demoE1.slug,
           demoE1.slug ++ ".png",
           { demoE1 with qr_code := some (demoE1.slug ++ ".png") }) :=
  c7_qr_payload demoBase demoE1 demoBlock2 (by decide)

/-- C8: when `qr_code` is already set, a save leaves it unchanged (the
generator runs on save only when the field is absent), and the explicit
admin regeneration action deletes the old file reference and reruns the
same generator, storing the freshly generated `slug ++ ".png"` file. -/
theorem c8_qr_generated_once
    (base : String) (db : List Exhibit) (e : Exhibit) (q : String)
    (e1 : Exhibit) (db1 : List Exhibit) (e2 : Exhibit) (db2 : List Exhibit)
    (hq : e.qr_code = some q)
    (hsave : exhibit_save base db e = .ok (e1, db1))
    (hreg : admin_regenerate_qr base db e = .ok (e2, db2)) :
    e1.qr_code = some q ∧ e2.qr_code = some (e.slug ++ ".png") := by
  constructor
  · cases hens : exhibit_ensure_slug_and_sequence db e with
    | error err =>
      unfold exhibit_save at hsave
      rw [hens] at hsave
      cases hsave
    | ok ee =>
      obtain ⟨hqr, _, _, _, _, ⟨b, hbb⟩, _⟩ := ensure_ok_inv hens
      obtain ⟨_, _, hqq⟩ := save_after_ensure hens hbb hsave
      rw [hqr, hq] at hqq
      simpa using hqq
  · unfold admin_regenerate_qr at hreg
    cases hbe : e.block with
    | none =>
      rw [show exhibit_generate_qr base { e with qr_code := none } = .error .attributeError from by
            simp [exhibit_generate_qr, exhibit_get_qr_path, hbe]] at hreg
      cases hreg
    | some b =>
      have hpath : exhibit_get_qr_path { e with qr_code := none } =
          .ok ("/" ++ b.museum.slug ++ "/" ++ e.slug) := by
        simp [exhibit_get_qr_path, hbe]
      cases hens2 : exhibit_ensure_slug_and_sequence db { e with qr_code := some (e.slug ++ ".png") } with
      | error err =>
        simp [exhibit_generate_qr, hpath, hens2] at hreg
      | ok ee2 =>
        obtain ⟨hqr2, _, _, _, _, _, _⟩ := ensure_ok_inv hens2
        have hqq2 : ee2.qr_code = some (e.slug ++ ".png") := by simpa using hqr2
        simp only [exhibit_generate_qr, hpath, hens2, hqq2, reduceIte,
          Except.ok.injEq, Prod.mk.injEq] at hreg
        obtain ⟨rfl, rfl⟩ := hreg
        exact hqq2

/-- Witness for C8 at the concrete saved exhibit with its QR already set. -/
theorem c8_witness :
    demoE1.qr_code = some "ISC-REN2-1.0001.png" ∧
    demoE1.qr_code = some (demoE1.slug ++ ".png") :=
  c8_qr_generated_once demoBase [demoE1] demoE1 "ISC-REN2-1.0001.png"
    demoE1 [demoE1] demoE1 [demoE1]
    (by decide) (by decide) (by decide)

lemma mem_published_ordered {db : List Exhibit} {e : Exhibit}
    (h : e ∈ published_ordered db) : e.is_published = true := by
  unfold published_ordered at h
  have hmem := (List.perm_insertionSort slugAsc (db.filter (fun x => x.is_published))).mem_iff.mp h
  exact (List.mem_filter.mp hmem).2

lemma mem_filter_museum {qs : List Exhibit} {ms : Option String} {e : Exhibit}
    (h : e ∈ filter_museum qs ms) : e ∈ qs := by
  cases ms with
  | none => exact h
  | some m => exact List.mem_of_mem_filter h

lemma mem_filter_query {qs : List Exhibit} {q : String} {e : Exhibit}
    (h : e ∈ filter_query qs q) : e ∈ qs := by
  simp only [filter_query] at h
  split at h
  · exact h
  · exact List.mem_of_mem_filter h

lemma mem_filter_block {qs : List Exhibit} {bid : Option Nat} {e : Exhibit}
    (h : e ∈ filter_block qs bid) : e ∈ qs := by
  cases bid with
  | none => exact h
  | some i => exact List.mem_of_mem_filter h

lemma mem_filter_section {qs : List Exhibit} {sid : Option Nat} {e : Exhibit}
    (h : e ∈ filter_section qs sid) : e ∈ qs := by
  cases sid with
  | none => exact h
  | some i => exact List.mem_of_mem_filter h

/-- C9: whatever combination of museum slug, free-text query, block id and
section id is applied, every exhibit in the public list queryset is
published. -/
theorem c9_published_only (db : List Exhibit) (ms : Option String) (q : String)
    (bid sid : Option Nat) (e : Exhibit)
    (h : e ∈ exhibitList_queryset db ms q bid sid) : e.is_published = true :=
  mem_published_ordered
    (mem_filter_museum (mem_filter_query (mem_filter_block (mem_filter_section h))))

/-- Witness for C9: the published row of a mixed table is in the unfiltered
public listing, and the theorem yields its published flag. -/
theorem c9_witness : demoE1.is_published = true :=
  c9_published_only [demoE1, demoUnpub] none "" none none demoE1 (by decide)

/-- C10: `ExhibitDetailByCodesView.get` reads the attribute `video` on the
fetched exhibit, but the Exhibit model defines no such attribute, so
building the detail context fails with an attribute lookup error for every
exhibit; `video` is exactly the one read with no matching attribute. -/
theorem c10_video_attribute_missing :
    ("video" ∈ detail_view_exhibit_reads) ∧
    ("video" ∉ exhibit_attribute_names) ∧
    detail_view_total = false ∧
    detail_view_exhibit_reads.filter (fun a => !(exhibit_attribute_names.contains a)) = ["video"] := by
  decide
